import Mathlib

/-!
Verification of the UMD Course Finder script
(src/UMD_Course_Finder/course-finder.py) against its natural-language
specification.

The script is a Streamlit dashboard issuing sequential HTTP requests to a
course-catalog REST API.  We shallowly embed the pure computations of the
script (JSON shape tests, seat summation, gen-ed flattening, semester
labels/sorting, URL classification, the per-course aggregation loop) as
executable Lean functions.  Python values returned by the API are modelled
by an inductive JSON type; Python exceptions that the script can raise are
modelled by an error type, and any piece of code that can raise is embedded
as a function into Except.  Network interaction is modelled by an
environment assigning to each request the response (or transport failure)
it produced.
-/

namespace CourseFinder

/-- JSON values as delivered by the catalog API (and Python values built
from them).  Numbers are modelled as integers: every numeric field the
script consumes (seat counts, credits) is an integer in the API. -/
inductive Json where
  | null
  | bool (b : Bool)
  | num (n : Int)
  | str (s : String)
  | arr (elems : List Json)
  | obj (fields : List (String × Json))

/-- Python exceptions the embedded fragments can raise. -/
inductive PyErr where
  | connectionError
  | typeError
  | keyError (k : String)

/-- Lookup in a Python dict modelled as an association list
(dict keys are unique, so first match is the value). -/
def getField : List (String × Json) → String → Option Json
  | [], _ => none
  | (k, v) :: rest, key => if k = key then some v else getField rest key

/-- Python d.get(key, default) for a dict value
(only ever applied to values already known to be dicts in the script). -/
def pyGet (j : Json) (key : String) (default : Json) : Json :=
  match j with
  | .obj fields => (getField fields key).getD default
  | _ => default

/-- Python d[key]: KeyError when absent, TypeError when not a dict. -/
def pyIndex (j : Json) (key : String) : Except PyErr Json :=
  match j with
  | .obj fields =>
    match getField fields key with
    | some v => .ok v
    | none => .error (.keyError key)
  | _ => .error .typeError

/-- Outcome of one requests.get call: either the transport raised
(connection failure, timeout, ...) or a response arrived with a status
code and a body (none when the body is not parseable JSON, so that
resp.json() raises JSONDecodeError). -/
inductive FetchResult where
  | netError
  | response (status : Nat) (body : Option Json)

/-- flatten_geneds from the script:
for g in geneds: recurse on lists, append strings, skip anything else. -/
def flatten_geneds : List Json → List String
  | [] => []
  | .arr l :: rest => flatten_geneds l ++ flatten_geneds rest
  | .str s :: rest => s :: flatten_geneds rest
  | _ :: rest => flatten_geneds rest

/-- Specification-side description of flattening: the string leaves of a
JSON tree in depth-first, left-to-right order, every non-string leaf
dropped. -/
def stringLeaves : Json → List String
  | .str s => [s]
  | .arr [] => []
  | .arr (x :: xs) => stringLeaves x ++ stringLeaves (.arr xs)
  | _ => []

/-- term_map.get(mm, 'Unknown') from semester_label. -/
def term_map_get (mm : String) : String :=
  if mm = "01" then "Spring"
  else if mm = "05" then "Summer"
  else if mm = "08" then "Fall"
  else if mm = "12" then "Winter"
  else "Unknown"

/-- semester_label from the script: year = sem_id[:4], mm = sem_id[4:],
result f-string "{term} {year}". -/
def semester_label (sem_id : String) : String :=
  let year := String.mk (sem_id.data.take 4)
  let mm := String.mk (sem_id.data.drop 4)
  term_map_get mm ++ " " ++ year

/-- Python int() on the digit strings the semester endpoint returns. -/
def pyIntOfDigits (s : String) : Nat :=
  s.data.foldl (fun n c => n * 10 + (c.toNat - 48)) 0

/-- Comparison used by sems.sort(key=lambda x: int(x), reverse=True):
a stands no later than b in the output when int(b) <= int(a). -/
def semKeyGE (a b : String) : Bool := pyIntOfDigits b ≤ pyIntOfDigits a

/-- sems.sort(key=lambda x: int(x), reverse=True) from fetch_semesters:
a stable sort, descending by integer value of the code. -/
def sort_semesters (sems : List String) : List String :=
  sems.mergeSort semKeyGE

/-- Python seats_open += v: adding a value to an int accumulator.
Adding an int or a bool (bools are ints in Python) succeeds; adding
anything else raises TypeError, which the summation loop does not catch. -/
def addOpen (acc : Int) (v : Json) : Except PyErr Int :=
  match v with
  | .num n => .ok (acc + n)
  | .bool b => .ok (acc + if b then 1 else 0)
  | _ => .error .typeError

/-- The guards of the summation loop: an entry contributes
seats.get("open", 0) exactly when it is a dict whose "seats" field is a
dict; every other entry is skipped. -/
def seatContribution (s : Json) : Option Json :=
  match s with
  | .obj fields =>
    match getField fields "seats" with
    | some (.obj sf) => some ((getField sf "open").getD (.num 0))
    | _ => none
  | _ => none

/-- The summation loop over section_data:
for s in section_data: if isinstance(s, dict): seats = s.get("seats");
if isinstance(seats, dict): seats_open += seats.get("open", 0). -/
def sumOpenAux : List Json → Int → Except PyErr Int
  | [], acc => .ok acc
  | s :: rest, acc =>
    match seatContribution s with
    | none => sumOpenAux rest acc
    | some v =>
      match addOpen acc v with
      | .ok acc2 => sumOpenAux rest acc2
      | .error e => .error e

/-- seats_open for one course's section_data value, starting from 0;
a non-list section_data is skipped entirely (isinstance check). -/
def sumOpenSeats : Json → Except PyErr Int
  | .arr sections => sumOpenAux sections 0
  | _ => .ok 0

/-- Lines 159-163 of the script: the section fetch.
A transport failure propagates (the except clause catches only
json.JSONDecodeError and ValueError, and requests transport errors are
neither); a non-200 status yields [] without calling resp.json(); a 200
response whose body fails to parse raises JSONDecodeError, which is
caught, yielding []. -/
def get_section_data : FetchResult → Except PyErr Json
  | .netError => .error .connectionError
  | .response status body =>
    if status = 200 then
      match body with
      | some j => .ok j
      | none => .ok (.arr [])
    else .ok (.arr [])

/-- The per-course open-seat total: section fetch followed by summation. -/
def course_seats (r : FetchResult) : Except PyErr Int :=
  match get_section_data r with
  | .ok sd => sumOpenSeats sd
  | .error e => .error e

/-- Specification-side seat total: the sum of seats.open over the entries
that are dicts whose "seats" field is a dict, a missing or malformed open
value contributing 0. -/
def specSeatStep (acc : Int) (s : Json) : Int :=
  match seatContribution s with
  | some (.num n) => acc + n
  | _ => acc

/-- Specification-side seat total over a section list. -/
def spec_seat_sum (sections : List Json) : Int :=
  sections.foldl specSeatStep 0

/-- A section entry whose contribution (when any) is an integer, so that
the Python += cannot raise on it. -/
def seat_entry_ok (s : Json) : Bool :=
  match seatContribution s with
  | some (.num _) => true
  | none => true
  | some _ => false

/-- profs = [p.get("name", "") for p in profs_data if isinstance(p, dict)]
from the script: the name field of every dict entry, defaulted to "". -/
def profs_from : Json → List Json
  | .arr ps =>
    ps.filterMap fun p =>
      match p with
      | .obj fields => some ((getField fields "name").getD (.str ""))
      | _ => none
  | _ => []

/-- Lines 172-181 of the script: the professor fetch for one course.
The surrounding try catches every exception, so any failure (transport,
parse, shape) leaves profs = []; only a 200 response with a JSON-list
body contributes names. -/
def get_profs : FetchResult → List Json
  | .netError => []
  | .response status body =>
    if status = 200 then
      match body with
      | some j => profs_from j
      | none => []
    else []

/-- Python sorted() on a list of strings: a stable sort, ascending in the
lexicographic (code-point) order. -/
def pySorted (xs : List String) : List String :=
  xs.mergeSort fun a b => decide (a ≤ b)

/-- The Professors cell: ", ".join(sorted(profs)) if profs else "N/A".
sorted/join on a list containing a non-string raises TypeError. -/
def professors_field (profs : List Json) : Except PyErr String :=
  if profs.isEmpty then .ok "N/A"
  else
    match profs.mapM (fun j =>
      match j with
      | .str s => Except.ok s
      | _ => Except.error PyErr.typeError) with
    | .ok names => .ok (", ".intercalate (pySorted names))
    | .error e => .error e

/-- Specification-side Professors cell: comma-join of the de-duplicated,
sorted names, "N/A" when there are none. -/
def spec_professors_field (names : List String) : String :=
  if names.isEmpty then "N/A"
  else ", ".intercalate (pySorted names.dedup)

/-- Python's "gen_ed" value turned into the list the script iterates:
for a list, flatten_geneds; for a string, iteration yields its
one-character substrings, each a str, so each is appended; for a dict,
iteration yields its keys; any other value is not iterable and raises
TypeError. -/
def geneds_value : Json → Except PyErr (List String)
  | .arr l => .ok (flatten_geneds l)
  | .str s => .ok (s.data.map fun ch => String.mk [ch])
  | .obj fields => .ok (fields.map Prod.fst)
  | _ => .error .typeError

/-- One row of the result table, as appended by the script. -/
structure Row where
  course_id : Json
  name : Json
  credits : Json
  gened : String
  professors : String
  seats_open : Int

/-- The body of the aggregation loop (lines 156-195) for one course:
section fetch and seat summation, professor fetch, the open_only
continue, then gen-ed flattening and row construction, in the script's
order.  The environment gives, per course_id value, the outcome of the
section request and of the professor request. -/
def process_course (open_only : Bool)
    (env : Json → FetchResult × FetchResult) (c : Json) :
    Except PyErr (Option Row) :=
  match pyIndex c "course_id" with
  | .error e => .error e
  | .ok cid =>
    match course_seats (env cid).1 with
    | .error e => .error e
    | .ok seats_open =>
      let profs := get_profs (env cid).2
      if open_only && seats_open == 0 then .ok none
      else
        match geneds_value (pyGet c "gen_ed" (.arr [])) with
        | .error e => .error e
        | .ok geneds =>
          match pyIndex c "name" with
          | .error e => .error e
          | .ok name =>
            match pyIndex c "credits" with
            | .error e => .error e
            | .ok credits =>
              match professors_field profs with
              | .error e => .error e
              | .ok profStr =>
                .ok (some
                  ⟨cid, name, credits, ", ".intercalate geneds,
                   profStr, seats_open⟩)

/-- The result-accumulating loop: results.append for each emitted row, an
uncaught exception aborting the remainder. -/
def run_search_loop (open_only : Bool)
    (env : Json → FetchResult × FetchResult) :
    List Json → List Row → Except PyErr (List Row)
  | [], acc => .ok acc
  | c :: rest, acc =>
    match process_course open_only env c with
    | .error e => .error e
    | .ok none => run_search_loop open_only env rest acc
    | .ok (some row) => run_search_loop open_only env rest (acc ++ [row])

/-- courses = courses[:10] followed by the aggregation loop. -/
def search_results (open_only : Bool)
    (env : Json → FetchResult × FetchResult) (courses : List Json) :
    Except PyErr (List Row) :=
  run_search_loop open_only env (courses.take 10) []

/-- The course_id a processed course contributes to its row. -/
def jsonCourseId (c : Json) : Json :=
  pyGet c "course_id" .null

/-- Whether an Except value is a success. -/
def isOkE : Except PyErr α → Bool
  | .ok _ => true
  | .error _ => false

/-- All the per-course conditions under which the loop body completes for
course c: the record has its fields, the section fetch and summation do
not raise, and the professor cell renders. -/
def course_ok (env : Json → FetchResult × FetchResult) (c : Json) : Bool :=
  match pyIndex c "course_id" with
  | .error _ => false
  | .ok cid =>
    isOkE (course_seats (env cid).1) &&
    isOkE (professors_field (get_profs (env cid).2)) &&
    isOkE (geneds_value (pyGet c "gen_ed" (.arr []))) &&
    isOkE (pyIndex c "name") &&
    isOkE (pyIndex c "credits")

/-- The base URL of the catalog API. -/
def BASE_URL : String := "https://api.umd.io/v1"

/-- The whitespace characters str.strip() removes. -/
def pyIsSpace (c : Char) : Bool :=
  c = ' ' || c = '\t' || c = '\n' || c = '\r' ||
  c = Char.ofNat 11 || c = Char.ofNat 12

/-- Python str.strip(): drop whitespace from both ends. -/
def pyStrip (s : String) : String :=
  String.mk (((s.data.dropWhile pyIsSpace).reverse.dropWhile pyIsSpace).reverse)

/-- Python str.upper() on the ASCII inputs the script deals with. -/
def pyUpper (s : String) : String :=
  String.mk (s.data.map Char.toUpper)

/-- The branch condition of the dept-or-course search (line 138):
user_input = course_or_dept.strip().upper(); specific iff
len(user_input) > 4. -/
def classify_specific (course_or_dept : String) : Bool :=
  (pyUpper (pyStrip course_or_dept)).length > 4

/-- The URL built by CASE 2 of the search (lines 136-148): the specific
lookup /courses/{ids} when the cleaned input is longer than 4 characters,
the department listing /courses?dept_id=...&per_page=100 otherwise, with
the gen-ed and semester query parameters appended under the script's
truthiness conditions. -/
def case2_url (course_or_dept gened : String) (filter_by_semester : Bool)
    (semester : String) : String :=
  let user_input := pyUpper (pyStrip course_or_dept)
  if classify_specific course_or_dept then
    let url := BASE_URL ++ "/courses/" ++ user_input
    if filter_by_semester && !semester.isEmpty then
      url ++ "?semester=" ++ semester
    else url
  else
    let url := BASE_URL ++ "/courses?dept_id=" ++ user_input ++ "&per_page=100"
    let url2 := if !gened.isEmpty then url ++ "&gen_ed=" ++ pyUpper gened
      else url
    if filter_by_semester && !semester.isEmpty then
      url2 ++ "&semester=" ++ semester
    else url2

/-- Split a character list at commas (used to state the specification's
"one or more comma-joined course identifiers"). -/
def splitOnComma : List Char → List (List Char)
  | [] => [[]]
  | c :: rest =>
    if c = ',' then [] :: splitOnComma rest
    else
      match splitOnComma rest with
      | [] => [[c]]
      | h :: t => (c :: h) :: t

/-- Whether a token starts with an alphabetic character. -/
def firstCharAlpha : List Char → Bool
  | c :: _ => c.isAlpha
  | [] => false

/-- The specification's course identifier: a token longer than 4
characters that is alphabetic-prefixed. -/
def isCourseIdent (s : List Char) : Bool :=
  decide (s.length > 4) && firstCharAlpha s

/-- The specification's classification: specific iff the input is one or
more comma-joined course identifiers (a comma-free input thus being
specific iff it is itself a course identifier). -/
def spec_classify_specific (s : String) : Bool :=
  (splitOnComma s.data).all fun p => isCourseIdent p

/-- fetch_courses from the script, given the outcome of the one GET it
makes: all exceptions are caught, yielding [] plus the error banner; a
successful JSON body is returned as-is except that a dict is wrapped in a
singleton list.  The second component records whether the error banner
was shown. -/
def fetch_courses (r : FetchResult) : Json × Bool :=
  match r with
  | .netError => (.arr [], true)
  | .response status body =>
    if 400 ≤ status ∧ status < 600 then (.arr [], true)
    else
      match body with
      | none => (.arr [], true)
      | some (.obj fields) => (.arr [.obj fields], false)
      | some j => (j, false)

/-- courses[:10] on the Python value fetch_courses returned: slicing a
list takes its first 10 elements; slicing a string takes a 10-character
string, whose iteration later yields 1-character strings; slicing any
other value raises TypeError. -/
def pySlice10 : Json → Except PyErr (List Json)
  | .arr l => .ok (l.take 10)
  | .str s => .ok ((s.data.take 10).map fun ch => Json.str (String.mk [ch]))
  | _ => .error .typeError

/-- CASE 2 of the search (professor field empty): build the URL, fetch
the course list, truncate to 10, aggregate.  Returns the rows and whether
the listing fetch showed the error banner. -/
def search_case2 (course_or_dept gened : String) (filter_by_semester : Bool)
    (semester : String) (open_only : Bool)
    (listingEnv : String → FetchResult)
    (courseEnv : Json → FetchResult × FetchResult) :
    Except PyErr (List Row × Bool) :=
  let url := case2_url course_or_dept gened filter_by_semester semester
  let fc := fetch_courses (listingEnv url)
  match pySlice10 fc.1 with
  | .error e => .error e
  | .ok courses =>
    match run_search_loop open_only courseEnv courses [] with
    | .error e => .error e
    | .ok rows => .ok (rows, fc.2)

/-- A well-formed course record as returned by the catalog listing. -/
def sample_course : Json :=
  .obj [("course_id", .str "CMSC216"), ("name", .str "Introduction"),
        ("credits", .num 4), ("gen_ed", .arr [])]

/-- A second well-formed course record. -/
def sample_course2 : Json :=
  .obj [("course_id", .str "MATH140"), ("name", .str "Calculus"),
        ("credits", .num 4), ("gen_ed", .arr [])]

/-- An environment in which every section request fails with an HTTP 500
whose body does not parse, and every professor request fails at the
transport level. -/
def degradedEnv : Json → FetchResult × FetchResult :=
  fun _ => (.response 500 none, .netError)

/-- A listing environment whose one response is a 200 with a one-course
body. -/
def listing_env_one_course : String → FetchResult :=
  fun _ => .response 200 (some (.arr [sample_course]))

end CourseFinder

namespace CourseFinder

/-- flatten_geneds computes exactly the depth-first string leaves. -/
theorem flatten_geneds_eq_stringLeaves :
    ∀ l : List Json, flatten_geneds l = stringLeaves (Json.arr l)
  | [] => by simp [flatten_geneds, stringLeaves]
  | Json.null :: rest => by
      simp [flatten_geneds, stringLeaves, flatten_geneds_eq_stringLeaves rest]
  | Json.bool b :: rest => by
      simp [flatten_geneds, stringLeaves, flatten_geneds_eq_stringLeaves rest]
  | Json.num n :: rest => by
      simp [flatten_geneds, stringLeaves, flatten_geneds_eq_stringLeaves rest]
  | Json.obj f :: rest => by
      simp [flatten_geneds, stringLeaves, flatten_geneds_eq_stringLeaves rest]
  | Json.str s :: rest => by
      simp [flatten_geneds, stringLeaves, flatten_geneds_eq_stringLeaves rest]
  | Json.arr l :: rest => by
      simp [flatten_geneds, stringLeaves, flatten_geneds_eq_stringLeaves l,
        flatten_geneds_eq_stringLeaves rest]

/-- Claim C5: for every gen-ed input list, flattening yields the flat
depth-first left-to-right sequence of its string entries, with arbitrary
nesting depth flattened, order preserved and non-string entries dropped;
in particular ["FSAR", ["DSHS", ["DSHU"]]] yields ["FSAR","DSHS","DSHU"]. -/
theorem geneds_flatten_ok :
    (∀ l : List Json, flatten_geneds l = stringLeaves (Json.arr l)) ∧
    flatten_geneds
      [Json.str "FSAR", Json.arr [Json.str "DSHS", Json.arr [Json.str "DSHU"]]]
      = ["FSAR", "DSHS", "DSHU"] :=
  ⟨flatten_geneds_eq_stringLeaves, by simp [flatten_geneds]⟩

/-- Claim C9: on every 6-character semester code YYYYMM the label function
maps month 01 to Spring, 05 to Summer, 08 to Fall, 12 to Winter and any
other month to the explicit label "Unknown", each combined with the
4-digit year. -/
theorem semester_label_ok (y : String) (hy : y.length = 4) :
    semester_label (y ++ "01") = "Spring " ++ y ∧
    semester_label (y ++ "05") = "Summer " ++ y ∧
    semester_label (y ++ "08") = "Fall " ++ y ∧
    semester_label (y ++ "12") = "Winter " ++ y ∧
    (∀ mm : String,
      mm ≠ "01" → mm ≠ "05" → mm ≠ "08" → mm ≠ "12" →
      semester_label (y ++ mm) = "Unknown " ++ y) := by
  have hdata : y.data.length = 4 := hy
  have hsplit : ∀ mm : String,
      semester_label (y ++ mm) = term_map_get mm ++ " " ++ y := by
    intro mm
    have hd : (y ++ mm).data = y.data ++ mm.data := rfl
    simp only [semester_label, hd, List.take_left' hdata, List.drop_left' hdata]
  refine ⟨?_, ?_, ?_, ?_, ?_⟩
  · rw [hsplit]; rfl
  · rw [hsplit]; rfl
  · rw [hsplit]; rfl
  · rw [hsplit]; rfl
  · intro mm h1 h2 h3 h4
    rw [hsplit]
    simp only [term_map_get, if_neg h1, if_neg h2, if_neg h3, if_neg h4]
    rfl

/-- Witness for semester_label_ok at year 2025 and an unknown month 99. -/
theorem semester_label_ok_witness :
    semester_label ("2025" ++ "01") = "Spring " ++ "2025" ∧
    semester_label ("2025" ++ "99") = "Unknown " ++ "2025" :=
  ⟨(semester_label_ok "2025" (by decide)).1,
   (semester_label_ok "2025" (by decide)).2.2.2.2 "99"
     (by decide) (by decide) (by decide) (by decide)⟩

/-- Claim C10: the semester sort is a permutation of its input arranged in
descending numeric order (newest code first); on
["202508","202501","202412"] it returns the list unchanged. -/
theorem semesters_sorted_desc :
    (∀ sems : List String,
      (sort_semesters sems).Perm sems ∧
      (sort_semesters sems).Pairwise
        (fun a b => pyIntOfDigits b ≤ pyIntOfDigits a)) ∧
    sort_semesters ["202508", "202501", "202412"]
      = ["202508", "202501", "202412"] := by
  constructor
  · intro sems
    constructor
    · exact List.mergeSort_perm sems _
    · have htrans : ∀ a b c : String,
          semKeyGE a b → semKeyGE b c → semKeyGE a c := by
        intro a b c hab hbc
        simp only [semKeyGE, decide_eq_true_eq] at *
        omega
      have htotal : ∀ a b : String, semKeyGE a b || semKeyGE b a := by
        intro a b
        simp only [semKeyGE]
        by_cases h : pyIntOfDigits b ≤ pyIntOfDigits a
        · simp [h]
        · simp [h]; omega
      have h := List.sorted_mergeSort htrans htotal sems
      refine h.imp ?_
      intro a b hab
      simpa [semKeyGE] using hab
  · exact List.mergeSort_of_sorted (by decide)

theorem pyUpper_length (t : String) : (pyUpper t).length = t.length := by
  show (t.data.map Char.toUpper).length = t.data.length
  exact List.length_map _ _

/-- Counterexample to claim C3: the cleaned input "12345" is neither a
comma-joined list of course identifiers nor alphabetic-prefixed, so the
claimed classification calls it a department code, yet the script
classifies it as specific (only the length is tested). -/
theorem numeric_input_classified_specific :
    classify_specific "12345" = true ∧
    spec_classify_specific (pyUpper (pyStrip "12345")) = false :=
  ⟨rfl, rfl⟩

/-- Claim C3 amended: with no professor given, the input (stripped,
upper-cased) is classified as specific exactly when the stripped input is
longer than 4 characters — comma structure and the alphabetic prefix are
not examined.  In particular "CMSC" takes the department listing path
while "CMSC216" and "CMSC216,MATH140" take the specific lookup path. -/
theorem classification_is_length_only :
    (∀ s : String, classify_specific s = decide (4 < (pyStrip s).length)) ∧
    classify_specific "CMSC" = false ∧
    classify_specific "CMSC216" = true ∧
    classify_specific "CMSC216,MATH140" = true ∧
    case2_url "CMSC216" "" false "" = BASE_URL ++ "/courses/CMSC216" ∧
    case2_url "CMSC" "" false ""
      = BASE_URL ++ "/courses?dept_id=CMSC&per_page=100" := by
  refine ⟨?_, rfl, rfl, rfl, rfl, rfl⟩
  intro s
  show decide (4 < (pyUpper (pyStrip s)).length) = _
  rw [pyUpper_length]

theorem mapM_str_ok (names : List String) :
    (names.map Json.str).mapM (fun j =>
      match j with
      | .str s => Except.ok s
      | _ => Except.error PyErr.typeError) = Except.ok names := by
  induction names with
  | nil => rfl
  | cons n rest ih =>
    rw [List.map_cons, List.mapM_cons, ih]
    rfl

theorem professors_field_strings (names : List String) :
    professors_field (names.map Json.str)
      = .ok (if names.isEmpty then "N/A"
             else ", ".intercalate (pySorted names)) := by
  cases names with
  | nil => rfl
  | cons n rest =>
    rw [professors_field]
    rw [mapM_str_ok]
    rfl

/-- Counterexample to claim C4: with the professor lookup returning the
same name twice, the Professors cell is "Smith, Smith" — the script sorts
but does not de-duplicate, while the claimed cell would be "Smith". -/
theorem professors_cell_not_deduplicated :
    professors_field (profs_from
      (.arr [.obj [("name", .str "Smith")], .obj [("name", .str "Smith")]]))
      = .ok "Smith, Smith" ∧
    spec_professors_field ["Smith", "Smith"] = "Smith" ∧
    ("Smith, Smith" : String) ≠ "Smith" := by
  have hsorted : pySorted ["Smith", "Smith"] = ["Smith", "Smith"] :=
    List.mergeSort_of_sorted (by simp [List.pairwise_cons])
  have hdedup : pySorted (["Smith", "Smith"].dedup) = ["Smith"] := by
    rw [show (["Smith", "Smith"].dedup) = ["Smith"] from by simp]
    exact List.mergeSort_of_sorted (by simp)
  refine ⟨?_, ?_, by decide⟩
  · show professors_field ((["Smith", "Smith"].map Json.str)) = .ok "Smith, Smith"
    rw [professors_field_strings, hsorted]
    rfl
  · rw [spec_professors_field, hdedup]
    rfl

/-- Claim C4 amended: the Professors cell is the comma-join of the
professor names fetched for the course, sorted but not de-duplicated, and
is the literal "N/A" when the list is empty; the sorted list is a
permutation of the fetched names, in ascending lexicographic order. -/
theorem professors_cell_sorted_join :
    ∀ names : List String,
      profs_from (.arr (names.map fun n => .obj [("name", Json.str n)]))
        = names.map Json.str ∧
      professors_field (names.map Json.str)
        = .ok (if names.isEmpty then "N/A"
               else ", ".intercalate (pySorted names)) ∧
      (pySorted names).Perm names ∧
      (pySorted names).Pairwise (fun a b => a ≤ b) := by
  intro names
  refine ⟨?_, professors_field_strings names, ?_, ?_⟩
  · rw [profs_from]
    induction names with
    | nil => rfl
    | cons n rest ih =>
      rw [List.map_cons, List.map_cons, List.filterMap_cons]
      simp only at ih ⊢
      rw [ih]
      rfl
  · exact List.mergeSort_perm names _
  · have htrans : ∀ a b c : String,
        (decide (a ≤ b)) → (decide (b ≤ c)) → (decide (a ≤ c)) := by
      intro a b c hab hbc
      simp only [decide_eq_true_eq] at *
      exact le_trans hab hbc
    have htotal : ∀ a b : String, decide (a ≤ b) || decide (b ≤ a) := by
      intro a b
      rcases le_total a b with h | h <;> simp [h]
    have h := List.sorted_mergeSort htrans htotal names
    refine h.imp ?_
    intro a b hab
    simpa using hab

/-- Counterexample to claim C8: the script does not special-case empty
inputs.  With professor and department both empty it still issues the
department-listing request (with an empty dept_id); if that request
returns a course, the result set is not empty. -/
theorem empty_inputs_can_yield_results :
    search_case2 "" "" false "" false listing_env_one_course degradedEnv
      = .ok ([⟨.str "CMSC216", .str "Introduction", .num 4,
              ", ".intercalate (flatten_geneds []), "N/A", 0⟩], false) ∧
    ([⟨.str "CMSC216", .str "Introduction", .num 4,
       ", ".intercalate (flatten_geneds []), "N/A", 0⟩] : List Row)
      ≠ [] :=
  ⟨rfl, by simp⟩

/-- Claim C8 amended: empty professor and empty department-or-course are
not special-cased; the search takes the department-listing path with an
empty dept_id and issues that request.  A transport failure, a 4xx/5xx
status or an unparseable body yields an empty result set with the error
banner shown; a 200 response whose body is the empty list yields an
empty result set with no banner; and (per the counterexample) a
successful response containing a course can yield a non-empty result
set. -/
theorem empty_inputs_take_department_path :
    case2_url "" "" false "" = BASE_URL ++ "/courses?dept_id=&per_page=100" ∧
    (∀ (listingEnv : String → FetchResult)
        (courseEnv : Json → FetchResult × FetchResult) (open_only : Bool),
      listingEnv (case2_url "" "" false "") = .netError →
      search_case2 "" "" false "" open_only listingEnv courseEnv
        = .ok ([], true)) ∧
    (∀ (listingEnv : String → FetchResult)
        (courseEnv : Json → FetchResult × FetchResult) (open_only : Bool)
        (status : Nat) (body : Option Json),
      400 ≤ status → status < 600 →
      listingEnv (case2_url "" "" false "") = .response status body →
      search_case2 "" "" false "" open_only listingEnv courseEnv
        = .ok ([], true)) ∧
    (∀ (listingEnv : String → FetchResult)
        (courseEnv : Json → FetchResult × FetchResult) (open_only : Bool)
        (status : Nat),
      listingEnv (case2_url "" "" false "") = .response status none →
      search_case2 "" "" false "" open_only listingEnv courseEnv
        = .ok ([], true)) ∧
    (∀ (listingEnv : String → FetchResult)
        (courseEnv : Json → FetchResult × FetchResult) (open_only : Bool),
      listingEnv (case2_url "" "" false "") = .response 200 (some (.arr [])) →
      search_case2 "" "" false "" open_only listingEnv courseEnv
        = .ok ([], false)) := by
  refine ⟨rfl, ?_, ?_, ?_, ?_⟩
  · intro listingEnv courseEnv open_only h
    simp only [search_case2, h]
    rfl
  · intro listingEnv courseEnv open_only status body h4 h6 h
    simp only [search_case2, h]
    rw [show fetch_courses (.response status body) = (.arr [], true) from by
      simp only [fetch_courses]
      rw [if_pos ⟨h4, h6⟩]]
    rfl
  · intro listingEnv courseEnv open_only status h
    simp only [search_case2, h]
    rw [show fetch_courses (.response status none) = (.arr [], true) from by
      simp only [fetch_courses]
      by_cases hs : 400 ≤ status ∧ status < 600
      · rw [if_pos hs]
      · rw [if_neg hs]]
    rfl
  · intro listingEnv courseEnv open_only h
    simp only [search_case2, h]
    rfl

/-- Witness: a failing listing request — transport error or a 200 whose
body does not parse — yields the empty table with the banner; a 200
empty-list response yields the empty table without it. -/
theorem empty_inputs_take_department_path_witness :
    search_case2 "" "" false "" false (fun _ => FetchResult.netError)
      degradedEnv = .ok ([], true) ∧
    search_case2 "" "" false "" false
      (fun _ => FetchResult.response 200 none) degradedEnv
      = .ok ([], true) ∧
    search_case2 "" "" false "" false
      (fun _ => FetchResult.response 200 (some (.arr []))) degradedEnv
      = .ok ([], false) :=
  ⟨empty_inputs_take_department_path.2.1 _ degradedEnv false rfl,
   empty_inputs_take_department_path.2.2.2.1 _ degradedEnv false 200 rfl,
   empty_inputs_take_department_path.2.2.2.2 _ degradedEnv false rfl⟩

/-- On entries whose open values are integers (or absent), the summation
loop computes the specification sum without raising. -/
theorem sumOpenAux_eq_spec :
    ∀ (sections : List Json) (acc : Int),
      sections.all seat_entry_ok = true →
      sumOpenAux sections acc = .ok (sections.foldl specSeatStep acc) := by
  intro sections
  induction sections with
  | nil => intro acc h; rfl
  | cons s rest ih =>
    intro acc h
    rw [List.all_cons, Bool.and_eq_true] at h
    obtain ⟨hs, hrest⟩ := h
    cases hc : seatContribution s with
    | none =>
      rw [sumOpenAux, hc]
      rw [List.foldl_cons]
      rw [show specSeatStep acc s = acc from by rw [specSeatStep, hc]]
      exact ih acc hrest
    | some v =>
      cases v with
      | num n =>
        rw [sumOpenAux, hc]
        show sumOpenAux rest (acc + n)
          = Except.ok (List.foldl specSeatStep acc (s :: rest))
        rw [List.foldl_cons]
        rw [show specSeatStep acc s = acc + n from by rw [specSeatStep, hc]]
        exact ih (acc + n) hrest
      | null => rw [seat_entry_ok, hc] at hs; exact absurd hs (by simp)
      | bool b => rw [seat_entry_ok, hc] at hs; exact absurd hs (by simp)
      | str t => rw [seat_entry_ok, hc] at hs; exact absurd hs (by simp)
      | arr l => rw [seat_entry_ok, hc] at hs; exact absurd hs (by simp)
      | obj f => rw [seat_entry_ok, hc] at hs; exact absurd hs (by simp)

/-- Counterexample to claim C2: for the section list
[{seats: {open: null}}] the entry is a dict whose seats field is a dict,
yet the summation raises TypeError (seats_open += None), instead of
contributing 0 and never raising; the specification sum of the same list
is 0. -/
theorem seat_sum_raises_on_null_open :
    sumOpenSeats (.arr [.obj [("seats", .obj [("open", Json.null)])]])
      = .error .typeError ∧
    spec_seat_sum [.obj [("seats", .obj [("open", Json.null)])]] = 0 :=
  ⟨rfl, rfl⟩

/-- Claim C2 amended: for every list of section records in which every
present open value is an integer, the computed Seats Open equals the sum
of seats.open over the entries that are dictionaries whose seats field is
a dictionary, every other entry (and every missing open value)
contributing 0, without raising. -/
theorem seat_sum_matches_spec (sections : List Json)
    (h : sections.all seat_entry_ok = true) :
    sumOpenSeats (.arr sections) = .ok (spec_seat_sum sections) :=
  sumOpenAux_eq_spec sections 0 h

theorem isOkE_iff {α : Type} {e : Except PyErr α} :
    isOkE e = true ↔ ∃ a, e = .ok a := by
  cases e <;> simp [isOkE]

theorem pyGet_of_pyIndex {c : Json} {k : String} {v : Json} (d : Json)
    (h : pyIndex c k = .ok v) : pyGet c k d = v := by
  cases c <;> simp [pyIndex] at h
  case obj fields =>
    cases hf : getField fields k <;> rw [hf] at h <;> simp at h
    simp [pyGet, hf, h]

theorem process_course_of_ok (env : Json → FetchResult × FetchResult)
    (c : Json) (hc : course_ok env c = true) :
    ∃ row, process_course false env c = .ok (some row) := by
  rw [course_ok] at hc
  cases hcid : pyIndex c "course_id" with
  | error e => rw [hcid] at hc; cases hc
  | ok cid =>
    rw [hcid] at hc
    simp only [Bool.and_eq_true] at hc
    obtain ⟨⟨⟨⟨h1, h2⟩, h3⟩, h4⟩, h5⟩ := hc
    obtain ⟨s, hs⟩ := isOkE_iff.mp h1
    obtain ⟨p, hp⟩ := isOkE_iff.mp h2
    obtain ⟨g, hg⟩ := isOkE_iff.mp h3
    obtain ⟨nm, hn⟩ := isOkE_iff.mp h4
    obtain ⟨cr, hcr⟩ := isOkE_iff.mp h5
    refine ⟨⟨cid, nm, cr, ", ".intercalate g, p, s⟩, ?_⟩
    simp [process_course, hcid, hs, hg, hn, hcr, hp]

theorem run_search_loop_all_ok (env : Json → FetchResult × FetchResult) :
    ∀ (l : List Json) (acc : List Row),
      l.all (course_ok env) = true →
      ∃ rows, run_search_loop false env l acc = .ok rows ∧
        rows.length = acc.length + l.length := by
  intro l
  induction l with
  | nil => intro acc h; exact ⟨acc, rfl, by simp⟩
  | cons c rest ih =>
    intro acc h
    rw [List.all_cons, Bool.and_eq_true] at h
    obtain ⟨hc, hrest⟩ := h
    obtain ⟨row, hrow⟩ := process_course_of_ok env c hc
    obtain ⟨rows, hrun, hlen⟩ := ih (acc ++ [row]) hrest
    refine ⟨rows, ?_, ?_⟩
    · simp only [run_search_loop, hrow]
      exact hrun
    · rw [hlen]; simp; omega

/-- Counterexample to claim C1: a transport-level (network) failure of a
section request is not caught by the aggregation loop (its except clause
catches only JSONDecodeError and ValueError), so the whole search aborts
with the exception and no remaining course is aggregated or emitted. -/
theorem section_net_failure_aborts_search :
    search_results false
      (fun _ => (FetchResult.netError, FetchResult.netError))
      [sample_course, sample_course2]
      = .error .connectionError := rfl

/-- Claim C1 amended: an HTTP-status failure or an unparseable body in the
section lookup degrades to zero seats, and any failure of the professor
lookup degrades to an empty professor list (rendered "N/A"), without
aborting the search: whenever no per-course step raises an uncaught
exception, every fetched course (up to the cap of 10) is aggregated and
emitted.  A transport-level failure of the section request, however, is
uncaught and aborts the search. -/
theorem aggregation_failures_degrade :
    (∀ (status : Nat) (body : Option Json), status ≠ 200 →
      course_seats (.response status body) = .ok 0) ∧
    (∀ status : Nat, course_seats (.response status none) = .ok 0) ∧
    professors_field (get_profs .netError) = .ok "N/A" ∧
    (∀ status : Nat, professors_field (get_profs (.response status none))
      = .ok "N/A") ∧
    (∀ (status : Nat) (body : Option Json), status ≠ 200 →
      professors_field (get_profs (.response status body)) = .ok "N/A") ∧
    (∀ (courses : List Json) (env : Json → FetchResult × FetchResult),
      (courses.take 10).all (course_ok env) = true →
      ∃ rows, search_results false env courses = .ok rows ∧
        rows.length = (courses.take 10).length) := by
  refine ⟨?_, ?_, rfl, ?_, ?_, ?_⟩
  · intro status body h
    simp [course_seats, get_section_data, h, sumOpenSeats, sumOpenAux]
  · intro status
    by_cases h : status = 200 <;>
      simp [course_seats, get_section_data, h, sumOpenSeats, sumOpenAux]
  · intro status
    by_cases h : status = 200 <;>
      simp [get_profs, h, professors_field]
  · intro status body h
    simp [get_profs, h, professors_field]
  · intro courses env h
    obtain ⟨rows, hrun, hlen⟩ :=
      run_search_loop_all_ok env (courses.take 10) [] h
    exact ⟨rows, hrun, by simpa using hlen⟩

/-- Witness: with one course whose section request returns HTTP 500 with
an unparseable body and whose professor request fails at the transport
level, the search still succeeds and emits that course. -/
theorem aggregation_failures_degrade_witness :
    ∃ rows, search_results false degradedEnv [sample_course] = .ok rows ∧
      rows.length = ([sample_course].take 10).length :=
  aggregation_failures_degrade.2.2.2.2.2 [sample_course] degradedEnv rfl

theorem process_course_some_id (o : Bool)
    (env : Json → FetchResult × FetchResult) (c : Json) (row : Row)
    (h : process_course o env c = .ok (some row)) :
    row.course_id = jsonCourseId c := by
  cases hcid : pyIndex c "course_id" with
  | error e => simp [process_course, hcid] at h
  | ok cid =>
    simp only [process_course, hcid] at h
    cases hs : course_seats (env cid).1 with
    | error e => simp [hs] at h
    | ok s =>
      simp only [hs] at h
      by_cases hoo : (o && s == 0) = true
      · rw [if_pos hoo] at h; simp at h
      · rw [if_neg hoo] at h
        cases hg : geneds_value (pyGet c "gen_ed" (.arr [])) with
        | error e => simp [hg] at h
        | ok g =>
          simp only [hg] at h
          cases hn : pyIndex c "name" with
          | error e => simp [hn] at h
          | ok nm =>
            simp only [hn] at h
            cases hcr : pyIndex c "credits" with
            | error e => simp [hcr] at h
            | ok cr =>
              simp only [hcr] at h
              cases hp : professors_field (get_profs (env cid).2) with
              | error e => simp [hp] at h
              | ok p =>
                simp only [hp, Except.ok.injEq, Option.some.injEq] at h
                rw [← h, jsonCourseId, pyGet_of_pyIndex Json.null hcid]

theorem run_search_loop_sublist (o : Bool)
    (env : Json → FetchResult × FetchResult) :
    ∀ (l : List Json) (acc rows : List Row),
      run_search_loop o env l acc = .ok rows →
      ∃ suffix, rows = acc ++ suffix ∧
        (suffix.map Row.course_id).Sublist (l.map jsonCourseId) := by
  intro l
  induction l with
  | nil =>
    intro acc rows h
    simp only [run_search_loop, Except.ok.injEq] at h
    exact ⟨[], by simp [h], by simp⟩
  | cons c rest ih =>
    intro acc rows h
    simp only [run_search_loop] at h
    cases hp : process_course o env c with
    | error e => simp [hp] at h
    | ok r =>
      simp only [hp] at h
      cases r with
      | none =>
        obtain ⟨suffix, hsuf, hsub⟩ := ih acc rows h
        exact ⟨suffix, hsuf, by simpa using hsub.cons (jsonCourseId c)⟩
      | some row =>
        obtain ⟨suffix, hsuf, hsub⟩ := ih (acc ++ [row]) rows h
        refine ⟨row :: suffix, by simpa using hsuf, ?_⟩
        simp only [List.map_cons]
        rw [process_course_some_id o env c row hp]
        exact hsub.cons₂ (jsonCourseId c)

/-- Claim C6: for every course list, at most the first 10 courses are
aggregated: whenever the search loop completes, it emits at most 10 rows,
and the emitted rows preserve the original course ordering — their
course ids form a subsequence of the first ten fetched course ids. -/
theorem search_caps_at_ten_preserving_order (open_only : Bool)
    (env : Json → FetchResult × FetchResult) (courses : List Json)
    (rows : List Row)
    (h : search_results open_only env courses = .ok rows) :
    rows.length ≤ 10 ∧
    (rows.map Row.course_id).Sublist ((courses.take 10).map jsonCourseId) := by
  obtain ⟨suffix, hsuf, hsub⟩ :=
    run_search_loop_sublist open_only env (courses.take 10) [] rows h
  rw [hsuf]
  simp only [List.nil_append]
  refine ⟨?_, hsub⟩
  have h1 : (suffix.map Row.course_id).length
      ≤ ((courses.take 10).map jsonCourseId).length := hsub.length_le
  simp only [List.length_map] at h1
  have h2 : (courses.take 10).length ≤ 10 := by
    rw [List.length_take]; omega
  omega

/-- Witness for the cap-and-order theorem: a search whose only fetched
course has zero open seats, with the open-seats filter active, completes
with the empty table. -/
theorem search_caps_at_ten_preserving_order_witness :
    (([] : List Row).length ≤ 10) ∧
    ((([] : List Row).map Row.course_id).Sublist
      (([sample_course].take 10).map jsonCourseId)) :=
  search_caps_at_ten_preserving_order true degradedEnv [sample_course] [] rfl

/-- Claim C7: with the per-course aggregation already done (seat total s,
rendered professor cell, well-formed record), a course with s = 0 is
skipped when the open-seats toggle is on, every course is emitted when
the toggle is off, and a course with s ≠ 0 is emitted even when the
toggle is on. -/
theorem open_only_filter_ok (env : Json → FetchResult × FetchResult)
    (c cid nm cr : Json) (g : List String) (pstr : String) (s : Int)
    (hcid : pyIndex c "course_id" = .ok cid)
    (hs : course_seats (env cid).1 = .ok s)
    (hp : professors_field (get_profs (env cid).2) = .ok pstr)
    (hg : geneds_value (pyGet c "gen_ed" (.arr [])) = .ok g)
    (hn : pyIndex c "name" = .ok nm)
    (hcr : pyIndex c "credits" = .ok cr) :
    (s = 0 → process_course true env c = .ok none) ∧
    process_course false env c
      = .ok (some ⟨cid, nm, cr, ", ".intercalate g, pstr, s⟩) ∧
    (s ≠ 0 → process_course true env c
      = .ok (some ⟨cid, nm, cr, ", ".intercalate g, pstr, s⟩)) := by
  refine ⟨?_, ?_, ?_⟩
  · intro h0
    subst h0
    simp [process_course, hcid, hs]
  · simp [process_course, hcid, hs, hg, hn, hcr, hp]
  · intro hne
    simp [process_course, hcid, hs, hg, hn, hcr, hp, hne]

/-- Witness for the open-seats filter: a zero-seat course is skipped when
the toggle is on and emitted when it is off. -/
theorem open_only_filter_ok_witness :
    process_course true degradedEnv sample_course = .ok none ∧
    process_course false degradedEnv sample_course
      = .ok (some ⟨.str "CMSC216", .str "Introduction", .num 4,
          ", ".intercalate (flatten_geneds []), "N/A", 0⟩) :=
  ⟨(open_only_filter_ok degradedEnv sample_course (.str "CMSC216")
      (.str "Introduction") (.num 4) (flatten_geneds []) "N/A" 0
      rfl rfl rfl rfl rfl rfl).1 rfl,
   (open_only_filter_ok degradedEnv sample_course (.str "CMSC216")
      (.str "Introduction") (.num 4) (flatten_geneds []) "N/A" 0
      rfl rfl rfl rfl rfl rfl).2.1⟩

/-- Witness: the spec's example
[{seats:{open:3}}, {seats:{open:0}}, {seats: null}] sums to 3. -/
theorem seat_sum_matches_spec_witness :
    sumOpenSeats (.arr
      [.obj [("seats", .obj [("open", Json.num 3)])],
       .obj [("seats", .obj [("open", Json.num 0)])],
       .obj [("seats", Json.null)]])
      = .ok 3 := by
  rw [seat_sum_matches_spec
    [.obj [("seats", .obj [("open", Json.num 3)])],
     .obj [("seats", .obj [("open", Json.num 0)])],
     .obj [("seats", Json.null)]] rfl]
  rfl

end CourseFinder
